import Mathlib

set_option maxHeartbeats 1600000
set_option maxRecDepth 16000

/-!
Verification of the streaming ETL pipeline in `preprocess_health_data.py`
(Apple-Health-Data-Explorer).  The Python source is shallowly embedded:
pure helpers become Lean functions, the mutable accumulator state of the
driver becomes an explicit state record threaded through a step function,
and CSV files become in-memory row lists tagged with a header count.
Python floats are modelled as exact rationals (no rounding is at issue in
the proved properties) and Python `datetime` values as a six-field record.
-/

namespace HealthETL

/-- Naive wall-clock timestamp, the model of a Python `datetime` produced by
`datetime.strptime(_, "%Y-%m-%d %H:%M:%S")` (no timezone). -/
structure DateTime where
  year : Nat
  month : Nat
  day : Nat
  hour : Nat
  minute : Nat
  second : Nat
deriving DecidableEq, Repr

/-- Strict lexicographic order on timestamps, the model of Python
`datetime` comparison (field-by-field lexicographic). -/
def dtLt (a b : DateTime) : Prop :=
  a.year < b.year ∨ (a.year = b.year ∧
    (a.month < b.month ∨ (a.month = b.month ∧
      (a.day < b.day ∨ (a.day = b.day ∧
        (a.hour < b.hour ∨ (a.hour = b.hour ∧
          (a.minute < b.minute ∨ (a.minute = b.minute ∧
            a.second < b.second)))))))))

instance (a b : DateTime) : Decidable (dtLt a b) := by
  unfold dtLt; infer_instance

/-- Model of Python `min(a, b)` on datetimes: the second argument replaces
the first only when strictly smaller. -/
def minD (a b : DateTime) : DateTime := if dtLt b a then b else a

/-- Model of Python `max(a, b)` on datetimes: the second argument replaces
the first only when strictly larger. -/
def maxD (a b : DateTime) : DateTime := if dtLt a b then b else a

def digitVal (c : Char) : Nat := c.toNat - 48

/-- Greedy digit munching: accumulated value, number of digits consumed and
the remaining characters. -/
def takeDigitsAux (acc n : Nat) : List Char → Nat × Nat × List Char
  | [] => (acc, n, [])
  | c :: rest =>
    if c.isDigit then takeDigitsAux (acc * 10 + digitVal c) (n + 1) rest
    else (acc, n, c :: rest)

/-- Python `str.strip()`: remove leading and trailing whitespace. -/
def pyStrip (cs : List Char) : List Char :=
  ((cs.dropWhile Char.isWhitespace).reverse.dropWhile Char.isWhitespace).reverse

/-- Model of CPython `float(str)` on the decimal/scientific literal forms
`[ws] [sign] (digits [. digits] | . digits) [(e|E) [sign] digits] [ws]`.
(The `inf`/`nan` keywords and PEP-515 digit underscores are outside the
forms exercised here.)  `none` models a raised `ValueError`. -/
def pyFloat (cs0 : List Char) : Option Rat :=
  let cs := pyStrip cs0
  let sgn : Bool × List Char :=
    match cs with
    | '+' :: r => (false, r)
    | '-' :: r => (true, r)
    | _ => (false, cs)
  let ip : Nat × Nat × List Char := takeDigitsAux 0 0 sgn.2
  let fp : Nat × Nat × List Char :=
    match ip.2.2 with
    | '.' :: r => takeDigitsAux 0 0 r
    | _ => (0, 0, ip.2.2)
  if ip.2.1 + fp.2.1 = 0 then none
  else
    let mant : Rat := (ip.1 : Rat) + (fp.1 : Rat) / ((10 : Rat) ^ fp.2.1)
    let withExp : Option Rat :=
      match fp.2.2 with
      | 'e' :: r | 'E' :: r =>
        let esgn : Bool × List Char :=
          match r with
          | '+' :: rr => (false, rr)
          | '-' :: rr => (true, rr)
          | _ => (false, r)
        let ep : Nat × Nat × List Char := takeDigitsAux 0 0 esgn.2
        if ep.2.1 = 0 then none
        else if ep.2.2 = [] then
          some (if esgn.1 then mant / (10 : Rat) ^ ep.1 else mant * (10 : Rat) ^ ep.1)
        else none
      | [] => some mant
      | _ => none
    match withExp with
    | none => none
    | some v => some (if sgn.1 then -v else v)

/-- `safe_float` from the source: `float(value) if value else default`,
with `ValueError`/`TypeError` recovered to `default`.  `none` models an
absent attribute (Python `None`), and the empty string is falsy. -/
def safe_float (value : Option String) (default : Rat) : Rat :=
  match value with
  | none => default
  | some s => if s = "" then default else (pyFloat s.data).getD default

/-! ### Model of `datetime.strptime(_, "%Y-%m-%d %H:%M:%S")`

CPython compiles the format to a regex; each directive is an ordered
alternation (`%Y` = four digits, `%m` = `1[0-2]|0[1-9]|[1-9]`, `%d` =
`3[01]|[12]\d|0[1-9]|[1-9]`, `%H` = `2[0-3]|[0-1]\d|\d`, `%M` =
`[0-5]\d|\d`, `%S` = `6[0-1]|[0-5]\d|\d`), literal whitespace matches a
nonempty whitespace run, the match must start at position 0 and is then
required to have consumed the whole string, and finally the matched
fields are validated by the `datetime` constructor.  The alternation
lists below enumerate candidate matches in backtracking order, so the
head of the candidate list is the regex engine's match. -/

/-- `%Y`: exactly four digits. -/
def matchY : List Char → List (Nat × List Char)
  | a :: b :: c :: d :: rest =>
    if a.isDigit ∧ b.isDigit ∧ c.isDigit ∧ d.isDigit then
      [(digitVal a * 1000 + digitVal b * 100 + digitVal c * 10 + digitVal d, rest)]
    else []
  | _ => []

/-- `%m`: `1[0-2] | 0[1-9] | [1-9]`, in regex alternation order. -/
def matchMon (cs : List Char) : List (Nat × List Char) :=
  (match cs with
   | a :: b :: rest =>
     (if a = '1' ∧ '0' ≤ b ∧ b ≤ '2' then [(10 + digitVal b, rest)] else []) ++
     (if a = '0' ∧ '1' ≤ b ∧ b ≤ '9' then [(digitVal b, rest)] else [])
   | _ => []) ++
  (match cs with
   | a :: rest => if '1' ≤ a ∧ a ≤ '9' then [(digitVal a, rest)] else []
   | _ => [])

/-- `%d`: `3[01] | [12]\d | 0[1-9] | [1-9]`. -/
def matchDay (cs : List Char) : List (Nat × List Char) :=
  (match cs with
   | a :: b :: rest =>
     (if a = '3' ∧ '0' ≤ b ∧ b ≤ '1' then [(30 + digitVal b, rest)] else []) ++
     (if ('1' ≤ a ∧ a ≤ '2') ∧ b.isDigit then [(digitVal a * 10 + digitVal b, rest)] else []) ++
     (if a = '0' ∧ '1' ≤ b ∧ b ≤ '9' then [(digitVal b, rest)] else [])
   | _ => []) ++
  (match cs with
   | a :: rest => if '1' ≤ a ∧ a ≤ '9' then [(digitVal a, rest)] else []
   | _ => [])

/-- `%H`: `2[0-3] | [0-1]\d | \d`. -/
def matchHour (cs : List Char) : List (Nat × List Char) :=
  (match cs with
   | a :: b :: rest =>
     (if a = '2' ∧ '0' ≤ b ∧ b ≤ '3' then [(20 + digitVal b, rest)] else []) ++
     (if ('0' ≤ a ∧ a ≤ '1') ∧ b.isDigit then [(digitVal a * 10 + digitVal b, rest)] else [])
   | _ => []) ++
  (match cs with
   | a :: rest => if a.isDigit then [(digitVal a, rest)] else []
   | _ => [])

/-- `%M`: `[0-5]\d | \d`. -/
def matchMin (cs : List Char) : List (Nat × List Char) :=
  (match cs with
   | a :: b :: rest =>
     if ('0' ≤ a ∧ a ≤ '5') ∧ b.isDigit then [(digitVal a * 10 + digitVal b, rest)] else []
   | _ => []) ++
  (match cs with
   | a :: rest => if a.isDigit then [(digitVal a, rest)] else []
   | _ => [])

/-- `%S`: `6[0-1] | [0-5]\d | \d` (the regex admits leap seconds; the
`datetime` constructor later rejects them). -/
def matchSec (cs : List Char) : List (Nat × List Char) :=
  (match cs with
   | a :: b :: rest =>
     (if a = '6' ∧ '0' ≤ b ∧ b ≤ '1' then [(60 + digitVal b, rest)] else []) ++
     (if ('0' ≤ a ∧ a ≤ '5') ∧ b.isDigit then [(digitVal a * 10 + digitVal b, rest)] else [])
   | _ => []) ++
  (match cs with
   | a :: rest => if a.isDigit then [(digitVal a, rest)] else []
   | _ => [])

/-- All full matches of the compiled format regex against the whole input,
in backtracking order. -/
def strptimeCands (cs : List Char) : List DateTime :=
  (matchY cs).flatMap (fun yr =>
    match yr.2 with
    | '-' :: r2 =>
      (matchMon r2).flatMap (fun mo =>
        match mo.2 with
        | '-' :: r4 =>
          (matchDay r4).flatMap (fun dy =>
            match dy.2 with
            | c :: r6 =>
              if c.isWhitespace then
                let r7 := r6.dropWhile Char.isWhitespace
                (matchHour r7).flatMap (fun hr =>
                  match hr.2 with
                  | ':' :: r8 =>
                    (matchMin r8).flatMap (fun mi =>
                      match mi.2 with
                      | ':' :: r10 =>
                        (matchSec r10).flatMap (fun sc =>
                          if sc.2 = [] then
                            [⟨yr.1, mo.1, dy.1, hr.1, mi.1, sc.1⟩]
                          else [])
                      | _ => [])
                  | _ => [])
              else []
            | [] => [])
        | _ => [])
    | _ => [])

def isLeap (y : Nat) : Bool := y % 4 = 0 && (y % 100 ≠ 0 || y % 400 = 0)

def daysInMonth (y m : Nat) : Nat :=
  if m = 2 then (if isLeap y then 29 else 28)
  else if m = 4 ∨ m = 6 ∨ m = 9 ∨ m = 11 then 30
  else 31

/-- The range checks performed by the `datetime(...)` constructor. -/
def dtValid (t : DateTime) : Bool :=
  decide (1 ≤ t.year ∧ t.year ≤ 9999 ∧ 1 ≤ t.month ∧ t.month ≤ 12 ∧
    1 ≤ t.day ∧ t.day ≤ daysInMonth t.year t.month ∧
    t.hour ≤ 23 ∧ t.minute ≤ 59 ∧ t.second ≤ 59)

/-- `datetime.strptime(s, "%Y-%m-%d %H:%M:%S")`: the regex engine's match
(head of the backtracking-ordered candidate list, which is also required
to consume the whole string) validated by the `datetime` constructor;
`none` models a raised `ValueError`. -/
def strptime (cs : List Char) : Option DateTime :=
  match strptimeCands cs with
  | [] => none
  | t :: _ => if dtValid t then some t else none

/-- `safe_parse_date` from the source:
`datetime.strptime(date_str.split('+')[0].strip(), '%Y-%m-%d %H:%M:%S')`
with falsy input short-circuited to `None` and all exceptions recovered
to `None`.  `split('+')[0]` is the longest '+'-free leading run. -/
def safe_parse_date (dateStr : Option String) : Option DateTime :=
  match dateStr with
  | none => none
  | some s =>
    if s = "" then none
    else strptime (pyStrip (s.data.takeWhile (fun c => c ≠ '+')))

/-! ### XML elements and routed rows -/

/-- A completed XML element as surfaced by `ET.iterparse`: a tag plus its
attribute list (XML attribute names are unique, so first lookup wins). -/
structure Elem where
  tag : String
  attrs : List (String × String)
deriving DecidableEq, Repr

/-- Python `elem.get(key)`: `none` when the attribute is absent. -/
def Elem.get (e : Elem) (k : String) : Option String :=
  (e.attrs.find? (fun p => p.1 = k)).map Prod.snd

/-- The `base_record` dict built for a classified Record (line 145 of the
source); `metric_type` is set only for the multi-identifier categories. -/
structure BaseRec where
  date : DateTime
  endDate : Option DateTime
  value : Rat
  unit : String
  source : String
  metric_type : Option String
deriving DecidableEq, Repr

/-- The `workout` dict built for a Workout element (line 260). -/
structure WorkoutRec where
  wtype : Option String
  duration : Rat
  date : DateTime
  endDate : Option DateTime
  distance : Rat
  energy : Rat
  source : String
deriving DecidableEq, Repr

/-- A row appended to some category table. -/
inductive Row where
  | sample (r : BaseRec)
  | workout (w : WorkoutRec)
deriving DecidableEq, Repr

/-- A category's backing CSV file: how many header rows it holds and its
data rows, in append order. -/
structure CsvFile where
  headers : Nat
  rows : List Row
deriving DecidableEq, Repr

/-- The batch size from the source (`BATCH_SIZE = 1000`). -/
def BATCH_SIZE : Nat := 1000

/-- The keys of the `batches` dict, in insertion order. -/
def categoryList : List String :=
  ["body_metrics", "heart_rate", "resting_heart_rate", "heart_rate_variability",
   "vo2_max", "heart_rate_recovery", "walking_heart_rate", "steps",
   "distance_walking_running", "distance_cycling", "flights_climbed",
   "exercise_time", "stand_time", "walking_metrics", "active_energy",
   "basal_energy", "oxygen_saturation", "respiratory_rate", "water",
   "caffeine", "dietary_metrics", "environmental", "sleep", "workouts"]

def bodyMetricTypes : List String :=
  ["HKQuantityTypeIdentifierBodyMassIndex", "HKQuantityTypeIdentifierHeight",
   "HKQuantityTypeIdentifierBodyMass", "HKQuantityTypeIdentifierBodyFatPercentage",
   "HKQuantityTypeIdentifierLeanBodyMass", "HKQuantityTypeIdentifierWaistCircumference"]

def walkingMetricTypes : List String :=
  ["HKQuantityTypeIdentifierWalkingSpeed", "HKQuantityTypeIdentifierWalkingStepLength",
   "HKQuantityTypeIdentifierWalkingAsymmetryPercentage",
   "HKQuantityTypeIdentifierWalkingDoubleSupportPercentage",
   "HKQuantityTypeIdentifierAppleWalkingSteadiness"]

def environmentalTypes : List String :=
  ["HKQuantityTypeIdentifierEnvironmentalAudioExposure",
   "HKQuantityTypeIdentifierHeadphoneAudioExposure",
   "HKQuantityTypeIdentifierTimeInDaylight"]

/-- Python `str.startswith`: structural character-prefix test. -/
def startsWithChars (pre : List Char) (t : List Char) : Bool :=
  match pre, t with
  | [], _ => true
  | _ :: _, [] => false
  | a :: as, b :: bs => a = b && startsWithChars as bs

/-- The `if record_type ... elif ...` dispatch chain of lines 157-252, in
source order (note the dietary-prefix rule sits between the caffeine and
environmental checks, exactly as in the source).  Returns the destination
category together with whether `metric_type` is attached, or `none` for an
unclassified identifier. -/
def classify (t : String) : Option (String × Bool) :=
  if t ∈ bodyMetricTypes then some ("body_metrics", true)
  else if t = "HKQuantityTypeIdentifierHeartRate" then some ("heart_rate", false)
  else if t = "HKQuantityTypeIdentifierRestingHeartRate" then some ("resting_heart_rate", false)
  else if t = "HKQuantityTypeIdentifierHeartRateVariabilitySDNN" then some ("heart_rate_variability", false)
  else if t = "HKQuantityTypeIdentifierVO2Max" then some ("vo2_max", false)
  else if t = "HKQuantityTypeIdentifierHeartRateRecoveryOneMinute" then some ("heart_rate_recovery", false)
  else if t = "HKQuantityTypeIdentifierWalkingHeartRateAverage" then some ("walking_heart_rate", false)
  else if t = "HKQuantityTypeIdentifierStepCount" then some ("steps", false)
  else if t = "HKQuantityTypeIdentifierDistanceWalkingRunning" then some ("distance_walking_running", false)
  else if t = "HKQuantityTypeIdentifierDistanceCycling" then some ("distance_cycling", false)
  else if t = "HKQuantityTypeIdentifierFlightsClimbed" then some ("flights_climbed", false)
  else if t = "HKQuantityTypeIdentifierAppleExerciseTime" then some ("exercise_time", false)
  else if t = "HKQuantityTypeIdentifierAppleStandTime" then some ("stand_time", false)
  else if t ∈ walkingMetricTypes then some ("walking_metrics", true)
  else if t = "HKQuantityTypeIdentifierActiveEnergyBurned" then some ("active_energy", false)
  else if t = "HKQuantityTypeIdentifierBasalEnergyBurned" then some ("basal_energy", false)
  else if t = "HKQuantityTypeIdentifierOxygenSaturation" then some ("oxygen_saturation", false)
  else if t = "HKQuantityTypeIdentifierRespiratoryRate" then some ("respiratory_rate", false)
  else if t = "HKQuantityTypeIdentifierDietaryWater" then some ("water", false)
  else if t = "HKQuantityTypeIdentifierDietaryCaffeine" then some ("caffeine", false)
  else if startsWithChars "HKQuantityTypeIdentifierDietary".data t.data then
    some ("dietary_metrics", true)
  else if t ∈ environmentalTypes then some ("environmental", true)
  else if t = "HKCategoryTypeIdentifierSleepAnalysis" then some ("sleep", false)
  else none

/-! ### Pipeline state -/

/-- The driver's mutable accumulators: per-category in-memory buffers, the
on-disk CSV files (`none` = file does not exist), the `all_data_types`
set, per-key date ranges and record counts, plus a trace-instrumentation
counter of how many `save_batch` calls each category's file received
(used to state the batching claims; it shadows no source variable). -/
structure PState where
  batches : String → List Row
  files : String → Option CsvFile
  allDataTypes : Finset String
  dataRanges : String → Option (DateTime × DateTime)
  recordCounts : String → Nat
  flushCount : String → Nat

/-- Pointwise update of a string-keyed map. -/
def upd {α : Type} (f : String → α) (k : String) (v : α) : String → α :=
  fun s => if s = k then v else f s

def initState : PState :=
  ⟨fun _ => [], fun _ => none, ∅, fun _ => none, fun _ => 0, fun _ => 0⟩

/-- `update_date_range` (line 120): first observation sets both bounds,
later ones fold in with `min`/`max`. -/
def rangeUpd (r : Option (DateTime × DateTime)) (d : DateTime) :
    Option (DateTime × DateTime) :=
  match r with
  | none => some (d, d)
  | some lohi => some (minD lohi.1 d, maxD lohi.2 d)

/-- `save_batch` (line 38): append rows to the CSV, writing the header
only when the file does not yet exist. -/
def save_batch (file : Option CsvFile) (records : List Row) : CsvFile :=
  match file with
  | none => ⟨1, records⟩
  | some f => ⟨f.headers, f.rows ++ records⟩

/-- `save_batch_if_full` (line 129): flush the category's buffer once it
holds at least `BATCH_SIZE` rows. -/
def save_batch_if_full (st : PState) (cat : String) : PState :=
  if BATCH_SIZE ≤ (st.batches cat).length then
    { st with
      files := upd st.files cat (some (save_batch (st.files cat) (st.batches cat))),
      batches := upd st.batches cat [],
      flushCount := upd st.flushCount cat (st.flushCount cat + 1) }
  else st

/-- `batches[cat].append(row)` followed by `save_batch_if_full(cat)`. -/
def appendRoute (st : PState) (cat : String) (row : Row) : PState :=
  save_batch_if_full
    { st with batches := upd st.batches cat (st.batches cat ++ [row]) } cat

/-- The `base_record` dict of line 145 (before any `metric_type` key is
added). -/
def mkBase (e : Elem) (d : DateTime) : BaseRec :=
  { date := d,
    endDate := safe_parse_date (e.get "endDate"),
    value := safe_float (e.get "value") 0,
    unit := (e.get "unit").getD "",
    source := (e.get "sourceName").getD "",
    metric_type := none }

/-- Lines 138-255: handling of one `Record` element.  An absent or empty
`type` attribute is falsy and skips the element; the identifier is added
to `all_data_types` before the date check; a record with an unparseable
start date is dropped; otherwise the date range for the identifier is
updated, the record is routed per `classify`, and
`record_counts[record_type]` is incremented. -/
def processRecord (st : PState) (e : Elem) : PState :=
  match e.get "type" with
  | none => st
  | some t =>
    if t = "" then st
    else
      let st1 := { st with allDataTypes := insert t st.allDataTypes }
      match safe_parse_date (e.get "startDate") with
      | none => st1
      | some d =>
        let st2 :=
          { st1 with dataRanges := upd st1.dataRanges t (rangeUpd (st1.dataRanges t) d) }
        let st3 :=
          match classify t with
          | none => st2
          | some cb =>
            appendRoute st2 cb.1
              (Row.sample (if cb.2 then { mkBase e d with metric_type := some t } else mkBase e d))
        { st3 with recordCounts := upd st3.recordCounts t (st3.recordCounts t + 1) }

/-- Lines 257-275: handling of one `Workout` element. -/
def processWorkout (st : PState) (e : Elem) : PState :=
  match safe_parse_date (e.get "startDate") with
  | none => st
  | some d =>
    let w : WorkoutRec :=
      { wtype := e.get "workoutActivityType",
        duration := safe_float (e.get "duration") 0,
        date := d,
        endDate := safe_parse_date (e.get "endDate"),
        distance := safe_float (e.get "totalDistance") 0,
        energy := safe_float (e.get "totalEnergyBurned") 0,
        source := (e.get "sourceName").getD "" }
    let st1 := appendRoute st "workouts" (Row.workout w)
    let st2 :=
      { st1 with dataRanges := upd st1.dataRanges "workouts" (rangeUpd (st1.dataRanges "workouts") d) }
    { st2 with recordCounts := upd st2.recordCounts "workouts" (st2.recordCounts "workouts" + 1) }

/-- One iteration of the streaming loop (line 136): elements with other
tags are ignored. -/
def step (st : PState) (e : Elem) : PState :=
  if e.tag = "Record" then processRecord st e
  else if e.tag = "Workout" then processWorkout st e
  else st

/-- The whole streaming pass. -/
def processAll (es : List Elem) (st : PState) : PState := es.foldl step st

/-- The end-of-run / on-interrupt flush loop (`for data_type, records in
batches.items(): if records: save_batch(...)`).  Each iteration touches
only its own key, so the dict iteration is modelled pointwise over the
dict's key set; as in the source the in-memory buffers are not cleared. -/
def flushAll (st : PState) : PState :=
  { st with
    files := fun c =>
      if c ∈ categoryList ∧ st.batches c ≠ [] then
        some (save_batch (st.files c) (st.batches c))
      else st.files c,
    flushCount := fun c =>
      if c ∈ categoryList ∧ st.batches c ≠ [] then st.flushCount c + 1
      else st.flushCount c }

/-- A fault injected into the streaming pass: a user interruption
(`KeyboardInterrupt`) or any other unhandled exception. -/
inductive Fault where
  | interrupt
  | error
deriving DecidableEq, Repr

/-- Observable outcome of a run of `preprocess_health_data`. -/
structure Outcome where
  state : PState
  metadataWritten : Bool
  exitCode : Nat

/-- The driver (lines 59-342).  A fault `(k, f)` fires after the first `k`
elements have been processed.  On a clean run the remaining buffers are
flushed and `metadata.json` is written (exit 0).  The `KeyboardInterrupt`
handler (line 330) flushes every non-empty buffer and exits 1 without
writing metadata; the generic `Exception` handler (line 338) prints a
diagnostic and exits 1 with neither flush nor metadata. -/
def runDriver (es : List Elem) (fault : Option (Nat × Fault)) : Outcome :=
  match fault with
  | none => ⟨flushAll (processAll es initState), true, 0⟩
  | some kf =>
    match kf.2 with
    | Fault.interrupt => ⟨flushAll (processAll (es.take kf.1) initState), false, 1⟩
    | Fault.error => ⟨processAll (es.take kf.1) initState, false, 1⟩

/-! ### Helper lemmas: the datetime order and min/max folds -/

lemma dtLt_asymm {a b : DateTime} (h : dtLt a b) : ¬ dtLt b a := by
  unfold dtLt at *; omega

lemma dtLt_irrefl (a : DateTime) : ¬ dtLt a a := by
  unfold dtLt; omega

lemma not_dtLt_trans {a b c : DateTime} (hab : ¬ dtLt a b) (hbc : ¬ dtLt b c) :
    ¬ dtLt a c := by
  unfold dtLt at *; omega

lemma minD_cases (a b : DateTime) : minD a b = a ∨ minD a b = b := by
  unfold minD; split <;> simp

lemma maxD_cases (a b : DateTime) : maxD a b = a ∨ maxD a b = b := by
  unfold maxD; split <;> simp

lemma minD_not_lt (a b : DateTime) :
    ¬ dtLt a (minD a b) ∧ ¬ dtLt b (minD a b) := by
  unfold minD
  split
  case isTrue h => exact ⟨dtLt_asymm h, dtLt_irrefl b⟩
  case isFalse h => exact ⟨dtLt_irrefl a, h⟩

lemma maxD_not_lt (a b : DateTime) :
    ¬ dtLt (maxD a b) a ∧ ¬ dtLt (maxD a b) b := by
  unfold maxD
  split
  case isTrue h => exact ⟨dtLt_asymm h, dtLt_irrefl b⟩
  case isFalse h => exact ⟨dtLt_irrefl a, h⟩

lemma foldl_minD_mem : ∀ (ds : List DateTime) (acc : DateTime),
    ds.foldl minD acc ∈ acc :: ds := by
  intro ds
  induction ds with
  | nil => intro acc; simp
  | cons x t ih =>
    intro acc
    rw [List.foldl_cons]
    rcases List.mem_cons.mp (ih (minD acc x)) with h1 | h1
    · rw [h1]
      rcases minD_cases acc x with hc | hc <;> rw [hc] <;> simp
    · exact List.mem_cons_of_mem _ (List.mem_cons_of_mem _ h1)

lemma foldl_minD_le : ∀ (ds : List DateTime) (acc : DateTime),
    ∀ d ∈ acc :: ds, ¬ dtLt d (ds.foldl minD acc) := by
  intro ds
  induction ds with
  | nil => intro acc d hd; simp at hd; subst hd; exact dtLt_irrefl d
  | cons x t ih =>
    intro acc d hd
    rw [List.foldl_cons]
    have hmin := minD_not_lt acc x
    have hres := ih (minD acc x) (minD acc x) (List.mem_cons_self _ _)
    rcases List.mem_cons.mp hd with h1 | h1
    · subst h1
      exact not_dtLt_trans hmin.1 hres
    rcases List.mem_cons.mp h1 with h2 | h2
    · subst h2
      exact not_dtLt_trans hmin.2 hres
    · exact ih (minD acc x) d (List.mem_cons_of_mem _ h2)

lemma foldl_maxD_mem : ∀ (ds : List DateTime) (acc : DateTime),
    ds.foldl maxD acc ∈ acc :: ds := by
  intro ds
  induction ds with
  | nil => intro acc; simp
  | cons x t ih =>
    intro acc
    rw [List.foldl_cons]
    rcases List.mem_cons.mp (ih (maxD acc x)) with h1 | h1
    · rw [h1]
      rcases maxD_cases acc x with hc | hc <;> rw [hc] <;> simp
    · exact List.mem_cons_of_mem _ (List.mem_cons_of_mem _ h1)

lemma foldl_maxD_ge : ∀ (ds : List DateTime) (acc : DateTime),
    ∀ d ∈ acc :: ds, ¬ dtLt (ds.foldl maxD acc) d := by
  intro ds
  induction ds with
  | nil => intro acc d hd; simp at hd; subst hd; exact dtLt_irrefl d
  | cons x t ih =>
    intro acc d hd
    rw [List.foldl_cons]
    have hmax := maxD_not_lt acc x
    have hres := ih (maxD acc x) (maxD acc x) (List.mem_cons_self _ _)
    rcases List.mem_cons.mp hd with h1 | h1
    · subst h1
      exact not_dtLt_trans hres hmax.1
    rcases List.mem_cons.mp h1 with h2 | h2
    · subst h2
      exact not_dtLt_trans hres hmax.2
    · exact ih (maxD acc x) d (List.mem_cons_of_mem _ h2)

lemma foldl_rangeUpd_some : ∀ (ds : List DateTime) (lo hi : DateTime),
    ds.foldl rangeUpd (some (lo, hi)) =
      some (ds.foldl minD lo, ds.foldl maxD hi) := by
  intro ds
  induction ds with
  | nil => intro lo hi; rfl
  | cons x t ih => intro lo hi; rw [List.foldl_cons]; exact ih (minD lo x) (maxD hi x)

lemma foldl_rangeUpd_cons (d0 : DateTime) (ds : List DateTime) :
    (d0 :: ds).foldl rangeUpd none =
      some (ds.foldl minD d0, ds.foldl maxD d0) := by
  rw [List.foldl_cons]; exact foldl_rangeUpd_some ds d0 d0

/-! ### Helper lemmas: pointwise map updates and the routing step -/

lemma upd_same {α : Type} (f : String → α) (k : String) (v : α) : upd f k v k = v := by
  simp [upd]

lemma upd_ne {α : Type} (f : String → α) (k : String) (v : α) {s : String}
    (h : s ≠ k) : upd f k v s = f s := by
  simp [upd, h]

lemma upd_upd_same {α : Type} (f : String → α) (k : String) (v w : α) :
    upd (upd f k v) k w = upd f k w := by
  funext s; unfold upd; split <;> rfl

/-- Default timestamp used only to strip the `Option` from a start date
that is known to parse. -/
def dt0 : DateTime := ⟨1, 1, 1, 0, 0, 0⟩

/-- The parsed start date of an element whose start date parses. -/
def hrDate (e : Elem) : DateTime := (safe_parse_date (e.get "startDate")).getD dt0

/-- The row the pipeline builds for a HeartRate record. -/
def hrRow (e : Elem) : Row := Row.sample (mkBase e (hrDate e))

/-- A `Record` element of type HeartRate with a parseable start date. -/
def validHR (e : Elem) : Prop :=
  e.tag = "Record" ∧ e.get "type" = some "HKQuantityTypeIdentifierHeartRate" ∧
    (safe_parse_date (e.get "startDate")).isSome = true

instance (e : Elem) : Decidable (validHR e) := by
  unfold validHR; infer_instance

lemma classify_hr :
    classify "HKQuantityTypeIdentifierHeartRate" = some ("heart_rate", false) := by
  rfl

/-- What one streaming-loop iteration does to a valid HeartRate record. -/
lemma step_hr (st : PState) (e : Elem) (h1 : e.tag = "Record")
    (h2 : e.get "type" = some "HKQuantityTypeIdentifierHeartRate")
    (d : DateTime) (hd : safe_parse_date (e.get "startDate") = some d) :
    step st e =
      (fun st3 =>
        { st3 with
          recordCounts := upd st3.recordCounts "HKQuantityTypeIdentifierHeartRate"
            (st3.recordCounts "HKQuantityTypeIdentifierHeartRate" + 1) })
      (appendRoute
        { st with
          allDataTypes := insert "HKQuantityTypeIdentifierHeartRate" st.allDataTypes,
          dataRanges := upd st.dataRanges "HKQuantityTypeIdentifierHeartRate"
            (rangeUpd (st.dataRanges "HKQuantityTypeIdentifierHeartRate") d) }
        "heart_rate" (Row.sample (mkBase e d))) := by
  unfold step
  rw [h1, if_pos rfl]
  unfold processRecord
  rw [h2, hd]
  rfl

/-- `appendRoute` in solved form: flush exactly when the buffer reaches
the batch size. -/
lemma appendRoute_eq (st : PState) (cat : String) (row : Row) :
    appendRoute st cat row =
      if BATCH_SIZE ≤ (st.batches cat).length + 1 then
        { st with
          batches := upd st.batches cat [],
          files := upd st.files cat
            (some (save_batch (st.files cat) (st.batches cat ++ [row]))),
          flushCount := upd st.flushCount cat (st.flushCount cat + 1) }
      else { st with batches := upd st.batches cat (st.batches cat ++ [row]) } := by
  unfold appendRoute save_batch_if_full
  have hc : ((upd st.batches cat (st.batches cat ++ [row])) cat).length =
      (st.batches cat).length + 1 := by
    rw [upd_same, List.length_append]; rfl
  rw [hc]
  split
  · dsimp only
    rw [upd_upd_same, upd_same]
  · rfl

/-! ### The single-category (HeartRate-only) run invariant -/

/-- Invariant of the streaming pass on a HeartRate-only input: after the
rows `rs` (with parsed dates `ds`) have been routed, the buffer holds the
last `rs.length % BATCH_SIZE` rows, the file holds the earlier full
batches under one header (and does not exist before the first flush), one
flush happened per full batch, the record count equals the number of rows
routed, the date range is the fold of the routed dates, and no other
category buffer holds anything. -/
def hrInv (rs : List Row) (ds : List DateTime) (st : PState) : Prop :=
  st.batches "heart_rate" = rs.drop (BATCH_SIZE * (rs.length / BATCH_SIZE)) ∧
  st.files "heart_rate" = (if rs.length < BATCH_SIZE then none
    else some ⟨1, rs.take (BATCH_SIZE * (rs.length / BATCH_SIZE))⟩) ∧
  st.flushCount "heart_rate" = rs.length / BATCH_SIZE ∧
  st.recordCounts "HKQuantityTypeIdentifierHeartRate" = rs.length ∧
  st.dataRanges "HKQuantityTypeIdentifierHeartRate" = ds.foldl rangeUpd none ∧
  ∀ c, c ≠ "heart_rate" → st.batches c = []

lemma hrInv_init : hrInv [] [] initState := by
  unfold hrInv initState
  refine ⟨rfl, by decide, rfl, rfl, rfl, fun c _ => rfl⟩

lemma hrInv_step {rs : List Row} {ds : List DateTime} {st : PState} (e : Elem)
    (hInv : hrInv rs ds st) (he : validHR e) :
    hrInv (rs ++ [hrRow e]) (ds ++ [hrDate e]) (step st e) := by
  obtain ⟨hb, hf, hfc, hrc, hdr, hoth⟩ := hInv
  obtain ⟨h1, h2, h3⟩ := he
  obtain ⟨d, hd⟩ := Option.isSome_iff_exists.mp h3
  have hdate : hrDate e = d := by unfold hrDate; rw [hd]; rfl
  have hrow : hrRow e = Row.sample (mkBase e d) := by unfold hrRow; rw [hdate]
  have hBS : BATCH_SIZE = 1000 := rfl
  have hlenb : (st.batches "heart_rate").length =
      rs.length - BATCH_SIZE * (rs.length / BATCH_SIZE) := by
    rw [hb, List.length_drop]
  rw [step_hr st e h1 h2 d hd]
  dsimp only
  rw [appendRoute_eq]
  dsimp only
  rw [hrow, hdate]
  by_cases hcnd : BATCH_SIZE ≤ (st.batches "heart_rate").length + 1
  · rw [if_pos hcnd]
    rw [hlenb] at hcnd
    rw [hBS] at hcnd
    refine ⟨?_, ?_, ?_, ?_, ?_, ?_⟩
    · dsimp only
      rw [upd_same]
      symm
      apply List.drop_eq_nil_of_le
      rw [List.length_append, List.length_singleton, hBS]
      omega
    · dsimp only
      rw [upd_same, hb, hf, List.length_append, List.length_singleton]
      have hne2 : ¬ rs.length + 1 < BATCH_SIZE := by rw [hBS]; omega
      rw [if_neg hne2]
      have hkk : BATCH_SIZE * ((rs.length + 1) / BATCH_SIZE) = rs.length + 1 := by
        rw [hBS]; omega
      rw [hkk]
      have htk : (rs ++ [Row.sample (mkBase e d)]).take (rs.length + 1) =
          rs ++ [Row.sample (mkBase e d)] := by
        apply List.take_of_length_le
        rw [List.length_append, List.length_singleton]
      rw [htk]
      by_cases hn : rs.length < BATCH_SIZE
      · rw [if_pos hn]
        have hk0 : BATCH_SIZE * (rs.length / BATCH_SIZE) = 0 := by
          rw [hBS]; rw [hBS] at hn; omega
        rw [hk0, List.drop_zero]
        rfl
      · rw [if_neg hn]
        show some (⟨1, rs.take _ ++ (rs.drop _ ++ _)⟩ : CsvFile) = _
        rw [← List.append_assoc, List.take_append_drop]
    · dsimp only
      rw [upd_same, hfc, List.length_append, List.length_singleton, hBS]
      omega
    · dsimp only
      rw [upd_same, hrc, List.length_append, List.length_singleton]
    · dsimp only
      rw [upd_same, hdr, List.foldl_append]
      rfl
    · intro c hc
      dsimp only
      rw [upd_ne _ _ _ hc]
      exact hoth c hc
  · rw [if_neg hcnd]
    rw [hlenb] at hcnd
    rw [hBS] at hcnd
    refine ⟨?_, ?_, ?_, ?_, ?_, ?_⟩
    · dsimp only
      rw [upd_same, hb, List.length_append, List.length_singleton]
      have hkk : BATCH_SIZE * ((rs.length + 1) / BATCH_SIZE) =
          BATCH_SIZE * (rs.length / BATCH_SIZE) := by rw [hBS]; omega
      rw [hkk]
      rw [List.drop_append_of_le_length (by rw [hBS]; omega)]
    · dsimp only
      rw [hf, List.length_append, List.length_singleton]
      by_cases hn : rs.length < BATCH_SIZE
      · rw [if_pos hn, if_pos (by rw [hBS]; rw [hBS] at hn; omega)]
      · rw [if_neg hn, if_neg (by rw [hBS]; rw [hBS] at hn; omega)]
        have hkk : BATCH_SIZE * ((rs.length + 1) / BATCH_SIZE) =
            BATCH_SIZE * (rs.length / BATCH_SIZE) := by rw [hBS]; omega
        rw [hkk, List.take_append_of_le_length (by rw [hBS]; omega)]
    · dsimp only
      rw [hfc, List.length_append, List.length_singleton, hBS]
      omega
    · dsimp only
      rw [upd_same, hrc, List.length_append, List.length_singleton]
    · dsimp only
      rw [upd_same, hdr, List.foldl_append]
      rfl
    · intro c hc
      dsimp only
      rw [upd_ne _ _ _ hc]
      exact hoth c hc

lemma hrInv_processAll : ∀ (es : List Elem) (st : PState) (rs : List Row)
    (ds : List DateTime), (∀ e ∈ es, validHR e) → hrInv rs ds st →
    hrInv (rs ++ es.map hrRow) (ds ++ es.map hrDate) (processAll es st) := by
  intro es
  induction es with
  | nil => intro st rs ds _ h; simpa [processAll] using h
  | cons e t ih =>
    intro st rs ds hv h
    have h1 := hrInv_step e h (hv e (List.mem_cons_self _ _))
    have h2 := ih (step st e) (rs ++ [hrRow e]) (ds ++ [hrDate e])
      (fun x hx => hv x (List.mem_cons_of_mem _ hx)) h1
    unfold processAll at *
    rw [List.foldl_cons]
    simpa [List.append_assoc] using h2

lemma flushAll_hr {rs : List Row} {ds : List DateTime} {st : PState}
    (h : hrInv rs ds st) (hne : rs ≠ []) :
    (flushAll st).files "heart_rate" = some ⟨1, rs⟩ ∧
    (flushAll st).flushCount "heart_rate" =
      rs.length / BATCH_SIZE + (if rs.length % BATCH_SIZE = 0 then 0 else 1) := by
  obtain ⟨hb, hf, hfc, -, -, -⟩ := h
  have hmem : "heart_rate" ∈ categoryList := by decide
  have hBS : BATCH_SIZE = 1000 := rfl
  have hlne : rs.length ≠ 0 := fun h0 => hne (List.length_eq_zero.mp h0)
  unfold flushAll
  dsimp only
  by_cases hbe : st.batches "heart_rate" = []
  · have hlen0 : rs.length - BATCH_SIZE * (rs.length / BATCH_SIZE) = 0 := by
      rw [hb] at hbe
      have := congrArg List.length hbe
      rwa [List.length_drop] at this
    rw [hBS] at hlen0
    rw [if_neg (by exact fun hx => hx.2 hbe), if_neg (by exact fun hx => hx.2 hbe)]
    constructor
    · rw [hf, if_neg (by rw [hBS]; omega)]
      have hkk : BATCH_SIZE * (rs.length / BATCH_SIZE) = rs.length := by rw [hBS]; omega
      rw [hkk, List.take_of_length_le (le_refl _)]
    · rw [hfc, if_pos (by rw [hBS]; omega)]
      rfl
  · rw [if_pos ⟨hmem, hbe⟩, if_pos ⟨hmem, hbe⟩]
    have hlenb : (st.batches "heart_rate").length =
        rs.length - BATCH_SIZE * (rs.length / BATCH_SIZE) := by
      rw [hb, List.length_drop]
    rw [hBS] at hlenb
    have hmod : ¬ rs.length % BATCH_SIZE = 0 := by
      intro h0
      apply hbe
      rw [hb]
      apply List.drop_eq_nil_of_le
      rw [hBS]
      rw [hBS] at h0
      omega
    constructor
    · rw [hb, hf]
      by_cases hn : rs.length < BATCH_SIZE
      · rw [if_pos hn]
        have hk0 : BATCH_SIZE * (rs.length / BATCH_SIZE) = 0 := by
          rw [hBS]; rw [hBS] at hn; omega
        rw [hk0, List.drop_zero]
        rfl
      · rw [if_neg hn]
        show some (⟨1, rs.take _ ++ rs.drop _⟩ : CsvFile) = _
        rw [List.take_append_drop]
    · rw [hfc, if_neg hmod]

/-! ### Concrete test elements -/

def eHR1 : Elem :=
  ⟨"Record", [("type", "HKQuantityTypeIdentifierHeartRate"),
    ("startDate", "2023-01-02 08:00:00 +0530"), ("endDate", "2023-01-02 08:00:05 +0530"),
    ("value", "72"), ("unit", "count/min"), ("sourceName", "Watch")]⟩

def eHR2 : Elem :=
  ⟨"Record", [("type", "HKQuantityTypeIdentifierHeartRate"),
    ("startDate", "2023-01-01 09:30:00 +0530"), ("value", "65.5"),
    ("unit", "count/min"), ("sourceName", "Watch")]⟩

def eGlucose : Elem :=
  ⟨"Record", [("type", "HKQuantityTypeIdentifierBloodGlucose"),
    ("startDate", "2023-03-01 10:00:00 +0000"), ("value", "90")]⟩

def eNoDate : Elem :=
  ⟨"Record", [("type", "HKQuantityTypeIdentifierHeartRate"), ("startDate", "not a date")]⟩

def eNoType : Elem := ⟨"Record", [("startDate", "2023-01-01 10:00:00 +0000")]⟩

/-! ### Claim theorems -/

/-- Claim C1: a run over exactly N valid HeartRate records writes a
`heart_rate` table with one header and exactly those N rows, built
field-for-field from the input attributes, sets the HeartRate record
count to N and the HeartRate date range to the minimum and maximum of the
N parsed start dates. -/
theorem C1_heart_rate_round_trip (es : List Elem) (hne : es ≠ [])
    (H : ∀ e ∈ es, validHR e) :
    (runDriver es none).state.files "heart_rate" = some ⟨1, es.map hrRow⟩ ∧
    (es.map hrRow).length = es.length ∧
    (runDriver es none).state.recordCounts "HKQuantityTypeIdentifierHeartRate" = es.length ∧
    (∃ lo hi,
      (runDriver es none).state.dataRanges "HKQuantityTypeIdentifierHeartRate" = some (lo, hi) ∧
      lo ∈ es.map hrDate ∧ hi ∈ es.map hrDate ∧
      ∀ d ∈ es.map hrDate, ¬ dtLt d lo ∧ ¬ dtLt hi d) ∧
    (runDriver es none).metadataWritten = true := by
  have hinv := hrInv_processAll es initState [] [] H hrInv_init
  rw [List.nil_append, List.nil_append] at hinv
  have hrsne : es.map hrRow ≠ [] := fun h0 => hne (List.map_eq_nil_iff.mp h0)
  have hflush := flushAll_hr hinv hrsne
  refine ⟨?_, ?_, ?_, ?_, rfl⟩
  · exact hflush.1
  · exact List.length_map _ _
  · have h1 := hinv.2.2.2.1
    show (processAll es initState).recordCounts "HKQuantityTypeIdentifierHeartRate" = es.length
    rw [h1, List.length_map]
  · have hdr := hinv.2.2.2.2.1
    obtain ⟨d0, ds', hds⟩ : ∃ d0 ds', es.map hrDate = d0 :: ds' := by
      cases hm : es.map hrDate with
      | nil => exact absurd (List.map_eq_nil_iff.mp hm) hne
      | cons a t => exact ⟨a, t, rfl⟩
    refine ⟨ds'.foldl minD d0, ds'.foldl maxD d0, ?_, ?_, ?_, ?_⟩
    · show (processAll es initState).dataRanges "HKQuantityTypeIdentifierHeartRate" = _
      rw [hdr, hds, foldl_rangeUpd_cons]
    · rw [hds]; exact foldl_minD_mem ds' d0
    · rw [hds]; exact foldl_maxD_mem ds' d0
    · intro d hd
      rw [hds] at hd
      exact ⟨foldl_minD_le ds' d0 d hd, foldl_maxD_ge ds' d0 d hd⟩

/-- Witness for C1 at a concrete two-record input. -/
theorem C1_witness :
    ([eHR1, eHR2] ≠ ([] : List Elem)) ∧ (∀ e ∈ [eHR1, eHR2], validHR e) ∧
    (runDriver [eHR1, eHR2] none).state.files "heart_rate" =
      some ⟨1, [eHR1, eHR2].map hrRow⟩ ∧
    (runDriver [eHR1, eHR2] none).state.recordCounts
      "HKQuantityTypeIdentifierHeartRate" = 2 := by
  refine ⟨by decide, by decide, ?_, ?_⟩
  · exact (C1_heart_rate_round_trip [eHR1, eHR2] (by decide) (by decide)).1
  · exact (C1_heart_rate_round_trip [eHR1, eHR2] (by decide) (by decide)).2.2.1

/-- Claim C2: a Record or Workout element whose start date is missing or
unparseable is dropped before classification: buffers, files, record
counts, date ranges and flush counters are all left unchanged. -/
theorem C2_dateless_dropped (st : PState) (e : Elem)
    (htag : e.tag = "Record" ∨ e.tag = "Workout")
    (hd : safe_parse_date (e.get "startDate") = none) :
    (step st e).batches = st.batches ∧ (step st e).files = st.files ∧
    (step st e).recordCounts = st.recordCounts ∧
    (step st e).dataRanges = st.dataRanges ∧
    (step st e).flushCount = st.flushCount := by
  rcases htag with h | h
  · unfold step
    rw [h, if_pos rfl]
    unfold processRecord
    cases hty : e.get "type" with
    | none => exact ⟨rfl, rfl, rfl, rfl, rfl⟩
    | some t =>
      dsimp only
      by_cases hte : t = ""
      · rw [if_pos hte]
        exact ⟨rfl, rfl, rfl, rfl, rfl⟩
      · rw [if_neg hte, hd]
        exact ⟨rfl, rfl, rfl, rfl, rfl⟩
  · unfold step
    rw [h, if_neg (by decide), if_pos rfl]
    unfold processWorkout
    rw [hd]
    exact ⟨rfl, rfl, rfl, rfl, rfl⟩

/-- Witness for C2 at a concrete dateless record. -/
theorem C2_witness :
    (eNoDate.tag = "Record" ∨ eNoDate.tag = "Workout") ∧
    safe_parse_date (eNoDate.get "startDate") = none ∧
    (step initState eNoDate).batches = initState.batches ∧
    (step initState eNoDate).recordCounts = initState.recordCounts := by
  refine ⟨Or.inl rfl, by decide, ?_, ?_⟩
  · exact (C2_dateless_dropped initState eNoDate (Or.inl rfl) (by decide)).1
  · exact (C2_dateless_dropped initState eNoDate (Or.inl rfl) (by decide)).2.2.1

/-- Claim C3: classification is a total function into the fixed category
set, every member of a fixed-set category (body, walking, environmental)
is classified to that category, and hence never to `dietary_metrics`. -/
theorem C3_classifier_total_and_precedence :
    (∀ t c mt, classify t = some (c, mt) → c ∈ categoryList) ∧
    (∀ t ∈ bodyMetricTypes, classify t = some ("body_metrics", true)) ∧
    (∀ t ∈ walkingMetricTypes, classify t = some ("walking_metrics", true)) ∧
    (∀ t ∈ environmentalTypes, classify t = some ("environmental", true)) ∧
    (∀ t, (t ∈ bodyMetricTypes ∨ t ∈ walkingMetricTypes ∨ t ∈ environmentalTypes) →
      ∀ mt, classify t ≠ some ("dietary_metrics", mt)) := by
  refine ⟨?_, ?_, ?_, ?_, ?_⟩
  · intro t c mt h
    unfold classify at h
    by_cases h1 : t ∈ bodyMetricTypes
    · rw [if_pos h1] at h
      injection h with hx
      injection hx with hc hmt
      subst hc
      decide
    rw [if_neg h1] at h
    by_cases h2 : t = "HKQuantityTypeIdentifierHeartRate"
    · rw [if_pos h2] at h
      injection h with hx
      injection hx with hc hmt
      subst hc
      decide
    rw [if_neg h2] at h
    by_cases h3 : t = "HKQuantityTypeIdentifierRestingHeartRate"
    · rw [if_pos h3] at h
      injection h with hx
      injection hx with hc hmt
      subst hc
      decide
    rw [if_neg h3] at h
    by_cases h4 : t = "HKQuantityTypeIdentifierHeartRateVariabilitySDNN"
    · rw [if_pos h4] at h
      injection h with hx
      injection hx with hc hmt
      subst hc
      decide
    rw [if_neg h4] at h
    by_cases h5 : t = "HKQuantityTypeIdentifierVO2Max"
    · rw [if_pos h5] at h
      injection h with hx
      injection hx with hc hmt
      subst hc
      decide
    rw [if_neg h5] at h
    by_cases h6 : t = "HKQuantityTypeIdentifierHeartRateRecoveryOneMinute"
    · rw [if_pos h6] at h
      injection h with hx
      injection hx with hc hmt
      subst hc
      decide
    rw [if_neg h6] at h
    by_cases h7 : t = "HKQuantityTypeIdentifierWalkingHeartRateAverage"
    · rw [if_pos h7] at h
      injection h with hx
      injection hx with hc hmt
      subst hc
      decide
    rw [if_neg h7] at h
    by_cases h8 : t = "HKQuantityTypeIdentifierStepCount"
    · rw [if_pos h8] at h
      injection h with hx
      injection hx with hc hmt
      subst hc
      decide
    rw [if_neg h8] at h
    by_cases h9 : t = "HKQuantityTypeIdentifierDistanceWalkingRunning"
    · rw [if_pos h9] at h
      injection h with hx
      injection hx with hc hmt
      subst hc
      decide
    rw [if_neg h9] at h
    by_cases h10 : t = "HKQuantityTypeIdentifierDistanceCycling"
    · rw [if_pos h10] at h
      injection h with hx
      injection hx with hc hmt
      subst hc
      decide
    rw [if_neg h10] at h
    by_cases h11 : t = "HKQuantityTypeIdentifierFlightsClimbed"
    · rw [if_pos h11] at h
      injection h with hx
      injection hx with hc hmt
      subst hc
      decide
    rw [if_neg h11] at h
    by_cases h12 : t = "HKQuantityTypeIdentifierAppleExerciseTime"
    · rw [if_pos h12] at h
      injection h with hx
      injection hx with hc hmt
      subst hc
      decide
    rw [if_neg h12] at h
    by_cases h13 : t = "HKQuantityTypeIdentifierAppleStandTime"
    · rw [if_pos h13] at h
      injection h with hx
      injection hx with hc hmt
      subst hc
      decide
    rw [if_neg h13] at h
    by_cases h14 : t ∈ walkingMetricTypes
    · rw [if_pos h14] at h
      injection h with hx
      injection hx with hc hmt
      subst hc
      decide
    rw [if_neg h14] at h
    by_cases h15 : t = "HKQuantityTypeIdentifierActiveEnergyBurned"
    · rw [if_pos h15] at h
      injection h with hx
      injection hx with hc hmt
      subst hc
      decide
    rw [if_neg h15] at h
    by_cases h16 : t = "HKQuantityTypeIdentifierBasalEnergyBurned"
    · rw [if_pos h16] at h
      injection h with hx
      injection hx with hc hmt
      subst hc
      decide
    rw [if_neg h16] at h
    by_cases h17 : t = "HKQuantityTypeIdentifierOxygenSaturation"
    · rw [if_pos h17] at h
      injection h with hx
      injection hx with hc hmt
      subst hc
      decide
    rw [if_neg h17] at h
    by_cases h18 : t = "HKQuantityTypeIdentifierRespiratoryRate"
    · rw [if_pos h18] at h
      injection h with hx
      injection hx with hc hmt
      subst hc
      decide
    rw [if_neg h18] at h
    by_cases h19 : t = "HKQuantityTypeIdentifierDietaryWater"
    · rw [if_pos h19] at h
      injection h with hx
      injection hx with hc hmt
      subst hc
      decide
    rw [if_neg h19] at h
    by_cases h20 : t = "HKQuantityTypeIdentifierDietaryCaffeine"
    · rw [if_pos h20] at h
      injection h with hx
      injection hx with hc hmt
      subst hc
      decide
    rw [if_neg h20] at h
    by_cases h21 : startsWithChars "HKQuantityTypeIdentifierDietary".data t.data = true
    · rw [if_pos h21] at h
      injection h with hx
      injection hx with hc hmt
      subst hc
      decide
    rw [if_neg h21] at h
    by_cases h22 : t ∈ environmentalTypes
    · rw [if_pos h22] at h
      injection h with hx
      injection hx with hc hmt
      subst hc
      decide
    rw [if_neg h22] at h
    by_cases h23 : t = "HKCategoryTypeIdentifierSleepAnalysis"
    · rw [if_pos h23] at h
      injection h with hx
      injection hx with hc hmt
      subst hc
      decide
    rw [if_neg h23] at h
    exact Option.noConfusion h
  · intro t ht; fin_cases ht <;> decide
  · intro t ht; fin_cases ht <;> decide
  · intro t ht; fin_cases ht <;> decide
  · intro t ht mt hcontra
    rcases ht with h | h | h <;>
      · fin_cases h <;>
          (injection hcontra with h1; injection h1 with hc hmt; exact absurd hc (by decide))

/-- Witness for C3 at concrete fixed-set members. -/
theorem C3_witness :
    ("HKQuantityTypeIdentifierHeight" ∈ bodyMetricTypes) ∧
    classify "HKQuantityTypeIdentifierHeight" = some ("body_metrics", true) ∧
    ("HKQuantityTypeIdentifierEnvironmentalAudioExposure" ∈ environmentalTypes) ∧
    classify "HKQuantityTypeIdentifierEnvironmentalAudioExposure" =
      some ("environmental", true) := by
  refine ⟨by decide, ?_, by decide, ?_⟩
  · exact C3_classifier_total_and_precedence.2.1 _ (by decide)
  · exact C3_classifier_total_and_precedence.2.2.2.1 _ (by decide)

/-- Counterexample to claim C4: an unclassified record with a valid date
does increment `record_counts` (line 254 runs for every valid-dated
record whatever `classify` said), so the count does not stay 0. -/
theorem C4_counterexample :
    classify "HKQuantityTypeIdentifierBloodGlucose" = none ∧
    "HKQuantityTypeIdentifierBloodGlucose" ∈ (step initState eGlucose).allDataTypes ∧
    (step initState eGlucose).recordCounts "HKQuantityTypeIdentifierBloodGlucose" = 1 ∧
    initState.recordCounts "HKQuantityTypeIdentifierBloodGlucose" = 0 := by
  decide

/-- Claim C4 as amended: an unclassified record with a valid start date is
routed to no batch and no file, and its identifier joins the observed
set, but `record_counts[type]` is incremented and `data_ranges[type]` is
updated all the same. -/
theorem C4_unclassified_still_counted (st : PState) (e : Elem) (t : String) (d : DateTime)
    (htag : e.tag = "Record") (hty : e.get "type" = some t) (hne : t ≠ "")
    (hcl : classify t = none) (hd : safe_parse_date (e.get "startDate") = some d) :
    (step st e).allDataTypes = insert t st.allDataTypes ∧
    (step st e).batches = st.batches ∧
    (step st e).files = st.files ∧
    (step st e).flushCount = st.flushCount ∧
    (step st e).recordCounts t = st.recordCounts t + 1 ∧
    (∀ t2, t2 ≠ t → (step st e).recordCounts t2 = st.recordCounts t2) ∧
    (step st e).dataRanges t = rangeUpd (st.dataRanges t) d := by
  unfold step
  rw [htag, if_pos rfl]
  unfold processRecord
  rw [hty]
  dsimp only
  rw [if_neg hne, hd]
  dsimp only
  rw [hcl]
  dsimp only
  exact ⟨rfl, rfl, rfl, rfl, upd_same _ _ _, fun t2 h2 => upd_ne _ _ _ h2, upd_same _ _ _⟩

/-- Witness for the amended C4 at a concrete unclassified record. -/
theorem C4_witness :
    eGlucose.tag = "Record" ∧
    classify "HKQuantityTypeIdentifierBloodGlucose" = none ∧
    (step initState eGlucose).recordCounts "HKQuantityTypeIdentifierBloodGlucose" =
      initState.recordCounts "HKQuantityTypeIdentifierBloodGlucose" + 1 ∧
    (step initState eGlucose).batches = initState.batches := by
  refine ⟨rfl, by decide, ?_, ?_⟩
  · exact (C4_unclassified_still_counted initState eGlucose
      "HKQuantityTypeIdentifierBloodGlucose" ⟨2023, 3, 1, 10, 0, 0⟩ rfl (by decide)
      (by decide) (by decide) (by decide)).2.2.2.2.1
  · exact (C4_unclassified_still_counted initState eGlucose
      "HKQuantityTypeIdentifierBloodGlucose" ⟨2023, 3, 1, 10, 0, 0⟩ rfl (by decide)
      (by decide) (by decide) (by decide)).2.1

/-- Counterexample to claim C5: the code splits only on `'+'`, so a
negative UTC-offset suffix is not truncated; the same wall-clock string
parses bare but returns absent with a `-0500` suffix. -/
theorem C5_counterexample :
    safe_parse_date (some "2023-05-04 10:00:00") = some ⟨2023, 5, 4, 10, 0, 0⟩ ∧
    safe_parse_date (some "2023-05-04 10:00:00 -0500") = none := by
  decide

lemma takeWhile_append_plus (core suffix : List Char) (h : ∀ c ∈ core, c ≠ '+') :
    (core ++ '+' :: suffix).takeWhile (fun c => c ≠ '+') = core := by
  induction core with
  | nil => simp [List.takeWhile_cons]
  | cons a t ih =>
    rw [List.cons_append, List.takeWhile_cons]
    have ha : a ≠ '+' := h a (List.mem_cons_self _ _)
    rw [if_pos (decide_eq_true ha)]
    rw [ih (fun c hc => h c (List.mem_cons_of_mem _ hc))]

/-- Claim C5 as amended: only a `'+'`-introduced offset suffix is
truncated and ignored (everything from the first `'+'` on is dropped and
the rest parsed as the naive wall-clock time); absent input, the empty
string, and any input whose '+'-free stripped prefix fails the fixed
layout return absent — negative-offset strings fall in this last class. -/
theorem C5_plus_offset_only :
    (∀ core suffix : List Char, (∀ c ∈ core, c ≠ '+') →
      safe_parse_date (some (String.mk (core ++ '+' :: suffix))) =
        strptime (pyStrip core)) ∧
    (∀ (core : List Char) (d : DateTime) (suffix : List Char),
      (∀ c ∈ core, c ≠ '+') → strptime (pyStrip core) = some d →
      safe_parse_date (some (String.mk (core ++ '+' :: suffix))) = some d) ∧
    safe_parse_date none = none ∧
    (∀ s : String, strptime (pyStrip (s.data.takeWhile (fun c => c ≠ '+'))) = none →
      safe_parse_date (some s) = none) := by
  have key : ∀ core suffix : List Char, (∀ c ∈ core, c ≠ '+') →
      safe_parse_date (some (String.mk (core ++ '+' :: suffix))) =
        strptime (pyStrip core) := by
    intro core suffix h
    have hne0 : String.mk (core ++ '+' :: suffix) ≠ "" := by
      intro h0
      have h1 := congrArg String.data h0
      simp at h1
    simp only [safe_parse_date]
    rw [if_neg hne0]
    rw [takeWhile_append_plus core suffix h]
  refine ⟨key, ?_, rfl, ?_⟩
  · intro core d suffix h hp
    rw [key core suffix h, hp]
  · intro s hp
    simp only [safe_parse_date]
    by_cases hs : s = ""
    · rw [if_pos hs]
    · rw [if_neg hs]; exact hp

/-- Witness for the amended C5 at a concrete positive-offset timestamp. -/
theorem C5_witness :
    (∀ c ∈ ("2023-05-04 10:00:00 ".data : List Char), c ≠ '+') ∧
    strptime (pyStrip "2023-05-04 10:00:00 ".data) = some ⟨2023, 5, 4, 10, 0, 0⟩ ∧
    safe_parse_date
        (some (String.mk ("2023-05-04 10:00:00 ".data ++ '+' :: "0530".data))) =
      some ⟨2023, 5, 4, 10, 0, 0⟩ := by
  refine ⟨by decide, by decide, ?_⟩
  exact C5_plus_offset_only.2.1 _ _ "0530".data (by decide) (by decide)

/-- Counterexample to claim C6: after an unhandled error the generic
exception handler (line 338) exits without flushing: the heart-rate
buffer is non-empty yet no file was written. -/
theorem C6_counterexample :
    (runDriver [eHR1] (some (1, Fault.error))).state.batches "heart_rate" ≠ [] ∧
    (runDriver [eHR1] (some (1, Fault.error))).state.files "heart_rate" = none ∧
    (runDriver [eHR1] (some (1, Fault.error))).metadataWritten = false ∧
    (runDriver [eHR1] (some (1, Fault.error))).exitCode = 1 := by
  decide

/-- Claim C6 as amended: on any unhandled streaming error the driver
terminates with a non-zero status and without writing metadata, but it
does NOT flush: files and buffers are left exactly as they were when the
error fired. -/
theorem C6_error_no_flush (es : List Elem) (k : Nat) :
    (runDriver es (some (k, Fault.error))).state.files =
      (processAll (es.take k) initState).files ∧
    (runDriver es (some (k, Fault.error))).state.batches =
      (processAll (es.take k) initState).batches ∧
    (runDriver es (some (k, Fault.error))).metadataWritten = false ∧
    (runDriver es (some (k, Fault.error))).exitCode ≠ 0 :=
  ⟨rfl, rfl, rfl, Nat.one_ne_zero⟩

/-- Claim C7: on user interruption after `k` elements every non-empty
buffer is flushed by appending to its category table (so previously
flushed rows persist as a prefix), the exit status is non-zero, and
metadata is not written. -/
theorem C7_interrupt_flush (es : List Elem) (k : Nat) :
    (runDriver es (some (k, Fault.interrupt))).metadataWritten = false ∧
    (runDriver es (some (k, Fault.interrupt))).exitCode ≠ 0 ∧
    (∀ c, c ∈ categoryList → (processAll (es.take k) initState).batches c ≠ [] →
      (runDriver es (some (k, Fault.interrupt))).state.files c =
        some (save_batch ((processAll (es.take k) initState).files c)
          ((processAll (es.take k) initState).batches c))) ∧
    (∀ c, (processAll (es.take k) initState).batches c = [] →
      (runDriver es (some (k, Fault.interrupt))).state.files c =
        (processAll (es.take k) initState).files c) ∧
    (∀ c f, (processAll (es.take k) initState).files c = some f →
      ∃ g rest, (runDriver es (some (k, Fault.interrupt))).state.files c = some g ∧
        g.headers = f.headers ∧ g.rows = f.rows ++ rest) := by
  refine ⟨rfl, Nat.one_ne_zero, ?_, ?_, ?_⟩
  · intro c hc hb
    show (flushAll (processAll (es.take k) initState)).files c = _
    unfold flushAll
    dsimp only
    rw [if_pos ⟨hc, hb⟩]
  · intro c hb
    show (flushAll (processAll (es.take k) initState)).files c = _
    unfold flushAll
    dsimp only
    rw [if_neg (fun hx => hx.2 hb)]
  · intro c f hf
    by_cases hcnd : c ∈ categoryList ∧ (processAll (es.take k) initState).batches c ≠ []
    · refine ⟨⟨f.headers, f.rows ++ (processAll (es.take k) initState).batches c⟩,
        (processAll (es.take k) initState).batches c, ?_, rfl, rfl⟩
      show (flushAll (processAll (es.take k) initState)).files c = _
      unfold flushAll
      dsimp only
      rw [if_pos hcnd, hf]
      rfl
    · refine ⟨f, [], ?_, rfl, by rw [List.append_nil]⟩
      show (flushAll (processAll (es.take k) initState)).files c = _
      unfold flushAll
      dsimp only
      rw [if_neg hcnd, hf]

/-- Witness for C7 at a concrete one-element interrupted run. -/
theorem C7_witness :
    "heart_rate" ∈ categoryList ∧
    (processAll ([eHR1].take 1) initState).batches "heart_rate" ≠ [] ∧
    (runDriver [eHR1] (some (1, Fault.interrupt))).state.files "heart_rate" =
      some (save_batch ((processAll ([eHR1].take 1) initState).files "heart_rate")
        ((processAll ([eHR1].take 1) initState).batches "heart_rate")) ∧
    (runDriver [eHR1] (some (1, Fault.interrupt))).metadataWritten = false := by
  refine ⟨by decide, by decide, ?_, (C7_interrupt_flush [eHR1] 1).1⟩
  exact (C7_interrupt_flush [eHR1] 1).2.2.1 "heart_rate" (by decide) (by decide)

/-- Claim C8: routing exactly `BATCH_SIZE + 1` records to one category
with no pre-existing file yields a file with one header row and
`BATCH_SIZE + 1` data rows, via exactly two flushes: one during the
stream at the batch boundary and one at end-of-run. -/
theorem C8_batch_boundary (es : List Elem) (hlen : es.length = BATCH_SIZE + 1)
    (H : ∀ e ∈ es, validHR e) :
    (runDriver es none).state.files "heart_rate" = some ⟨1, es.map hrRow⟩ ∧
    (es.map hrRow).length = BATCH_SIZE + 1 ∧
    (processAll es initState).flushCount "heart_rate" = 1 ∧
    (runDriver es none).state.flushCount "heart_rate" = 2 := by
  have hinv := hrInv_processAll es initState [] [] H hrInv_init
  rw [List.nil_append, List.nil_append] at hinv
  have hlr : (es.map hrRow).length = BATCH_SIZE + 1 := by rw [List.length_map, hlen]
  have hrsne : es.map hrRow ≠ [] := by
    intro h0
    rw [h0] at hlr
    exact absurd hlr (by decide)
  have hflush := flushAll_hr hinv hrsne
  refine ⟨hflush.1, hlr, ?_, ?_⟩
  · have h1 := hinv.2.2.1
    rw [h1, hlr]
    decide
  · show (flushAll (processAll es initState)).flushCount "heart_rate" = 2
    rw [hflush.2, hlr]
    decide

/-- Witness for C8 at a concrete 1001-element input. -/
theorem C8_witness :
    (List.replicate (BATCH_SIZE + 1) eHR1).length = BATCH_SIZE + 1 ∧
    (runDriver (List.replicate (BATCH_SIZE + 1) eHR1) none).state.files "heart_rate" =
      some ⟨1, (List.replicate (BATCH_SIZE + 1) eHR1).map hrRow⟩ ∧
    (runDriver (List.replicate (BATCH_SIZE + 1) eHR1) none).state.flushCount
      "heart_rate" = 2 := by
  have h1 : (List.replicate (BATCH_SIZE + 1) eHR1).length = BATCH_SIZE + 1 :=
    List.length_replicate _ _
  have h2 : ∀ e ∈ List.replicate (BATCH_SIZE + 1) eHR1, validHR e := by
    intro e he
    rw [List.eq_of_mem_replicate he]
    decide
  exact ⟨h1, (C8_batch_boundary _ h1 h2).1, (C8_batch_boundary _ h1 h2).2.2.2⟩

/-- Claim C9: `safe_float` returns the configured default on absent,
empty, or non-numeric input, never fails, and returns the parsed value on
numeric input. -/
theorem C9_safe_float_total (d : Rat) :
    safe_float none d = d ∧
    safe_float (some "") d = d ∧
    (∀ s : String, pyFloat s.data = none → safe_float (some s) d = d) ∧
    (∀ (s : String) (q : Rat), s ≠ "" → pyFloat s.data = some q →
      safe_float (some s) d = q) := by
  refine ⟨rfl, rfl, ?_, ?_⟩
  · intro s hp
    simp only [safe_float]
    by_cases hs : s = ""
    · rw [if_pos hs]
    · rw [if_neg hs, hp]
      rfl
  · intro s q hs hp
    simp only [safe_float]
    rw [if_neg hs, hp]
    rfl

/-- Witness for C9 at concrete numeric and non-numeric inputs. -/
theorem C9_witness :
    pyFloat ("3.5" : String).data = some (7 / 2 : Rat) ∧
    safe_float (some "3.5") 0 = (7 / 2 : Rat) ∧
    pyFloat ("abc" : String).data = none ∧
    safe_float (some "abc") 0 = 0 := by
  have h1 : pyFloat ("3.5" : String).data = some (7 / 2 : Rat) := by
    simp +decide [pyFloat, pyStrip, takeDigitsAux, digitVal]
    try norm_num
  have h2 : pyFloat ("abc" : String).data = none := by
    simp +decide [pyFloat, pyStrip, takeDigitsAux, digitVal]
  refine ⟨h1, ?_, h2, ?_⟩
  · exact (C9_safe_float_total 0).2.2.2 "3.5" (7 / 2) (by decide) h1
  · exact (C9_safe_float_total 0).2.2.1 "abc" h2

/-- Claim C10: a Record with an absent or empty `type` attribute is
skipped entirely — the whole accumulator state, observed-identifier set
included, is unchanged. -/
theorem C10_typeless_skipped (st : PState) (e : Elem) (htag : e.tag = "Record")
    (hty : e.get "type" = none ∨ e.get "type" = some "") :
    step st e = st := by
  unfold step
  rw [htag, if_pos rfl]
  unfold processRecord
  rcases hty with h | h
  · rw [h]
  · rw [h]
    dsimp only
    rw [if_pos rfl]

/-- Witness for C10 at a concrete typeless record. -/
theorem C10_witness :
    eNoType.tag = "Record" ∧ eNoType.get "type" = none ∧
    step initState eNoType = initState :=
  ⟨rfl, by decide, C10_typeless_skipped initState eNoType rfl (Or.inl (by decide))⟩

end HealthETL
